import Mathlib

/-!
Verification development for the Telegram stock-management bot
(GerenciadorDeEstoqueBotTelegram).

The development shallowly embeds the two components the specification
singles out:

* the Ledger Store (`src/app/database.py`, class `DatabaseManager`):
  products, movements and promotional-record tables, with the
  transactional `adjust_stock` mutation and the bulk `clear_stock`
  operation; and
* the Flow Controller (`src/app/bot.py`, class `EosBot`): the per-user
  `UserSession` table and the event handlers that drive the multi-step
  movement wizard.

Python `Decimal` values (exact decimal arithmetic in the source) are
embedded as `ℚ`; `Decimal.quantize(Decimal("0.01"))` with the default
context is rounding half-to-even, which is modelled exactly.  Database
rows are Lean structures, the tables are lists, and a raised exception
is an `Except` error.  Rendering (message text sent to Telegram,
keyboards, message-reference bookkeeping in `session.metadata`) is
presentational and is not part of the state model; the load-bearing
metadata keys `pending_quantity` and `is_brinde` are modelled as
session fields.
-/

namespace EosBot

/-! ### Decimal rounding

`Decimal.quantize(Decimal("0.01"))` in `bot.py` uses the default
decimal context, whose rounding mode is `ROUND_HALF_EVEN`; the import
of `ROUND_HALF_UP` in `bot.py` is used only for the stock-bar rendering
(`(ratio * 10).quantize(Decimal("1"), rounding=ROUND_HALF_UP)`), never
for money totals.  Both modes are defined here so the two can be
compared. -/

/-- Round a rational to the nearest integer, ties to the even
neighbour (Python decimal `ROUND_HALF_EVEN`, the default context
rounding). -/
def roundHalfEvenZ (x : ℚ) : ℤ :=
  let n : ℤ := ⌊x⌋
  let r : ℚ := x - n
  if r < 1/2 then n
  else if 1/2 < r then n + 1
  else if n % 2 = 0 then n else n + 1

/-- Round a rational to the nearest integer, ties away from zero
(Python decimal `ROUND_HALF_UP`). -/
def roundHalfUpZ (x : ℚ) : ℤ :=
  if 0 ≤ x then ⌊x + 1/2⌋ else -⌊(-x) + 1/2⌋

/-- Model of `value.quantize(Decimal("0.01"))` under the default
context: round to two decimal places, half to even. -/
def quantize2HalfEven (x : ℚ) : ℚ :=
  (roundHalfEvenZ (x * 100) : ℚ) / 100

/-- Rounding to two decimal places with ties away from zero
(the `round_half_up(·, 2)` the specification speaks about). -/
def quantize2HalfUp (x : ℚ) : ℚ :=
  (roundHalfUpZ (x * 100) : ℚ) / 100

/-! ### Free-text numeric input

`bot.py` parses user text with `Decimal(text.strip().replace(",", "."))`,
catching `InvalidOperation`.  The model works on the stripped,
comma-normalised string.  `Decimal` accepts finite numerals
(`sign? (digits (. digits?)? | . digits) ((e|E) sign? digits)?`) and the
special spellings of NaN and Infinity; those are kept apart from the
finite values (and from each other) because the handlers treat them
differently: a comparison against a NaN raises `InvalidOperation` at
once, while an infinity flows through the comparisons and fails only
at `quantize` or at the constrained `NUMERIC` column write. -/

/-- Numeric value of a list of ASCII digits (most significant first). -/
def digitsVal (cs : List Char) : Nat :=
  cs.foldl (fun a c => a * 10 + (c.toNat - 48)) 0

/-- Spellings `nan`/`snan` (any case, optional diagnostic digits)
that `Decimal` turns into a NaN. -/
def isNanSpelling (cs : List Char) : Bool :=
  match cs.map Char.toLower with
  | 'n' :: 'a' :: 'n' :: rest => rest.all Char.isDigit
  | 's' :: 'n' :: 'a' :: 'n' :: rest => rest.all Char.isDigit
  | _ => false

/-- Spellings `inf`/`infinity` (any case) that `Decimal` turns into an
infinity. -/
def isInfSpelling (cs : List Char) : Bool :=
  cs.map Char.toLower = "inf".data || cs.map Char.toLower = "infinity".data

/-- Optional exponent suffix `(e|E) sign? digits`; an empty remainder
means exponent `0`. -/
def parseExpPart : List Char → Option ℤ
  | [] => some 0
  | c :: rest =>
    if c = 'e' ∨ c = 'E' then
      match rest with
      | '+' :: ds => if ds ≠ [] ∧ ds.all Char.isDigit then some (digitsVal ds) else none
      | '-' :: ds => if ds ≠ [] ∧ ds.all Char.isDigit then some (-(digitsVal ds : ℤ)) else none
      | ds => if ds ≠ [] ∧ ds.all Char.isDigit then some (digitsVal ds) else none
    else none

/-- Unsigned finite numeral `digits (. digits?)? exp?` or `. digits exp?`. -/
def parseFinite (cs : List Char) : Option ℚ :=
  let ip := cs.takeWhile Char.isDigit
  let r1 := cs.dropWhile Char.isDigit
  let fp := match r1 with
    | '.' :: rest => rest.takeWhile Char.isDigit
    | _ => []
  let r2 := match r1 with
    | '.' :: rest => rest.dropWhile Char.isDigit
    | _ => r1
  if ip.isEmpty ∧ fp.isEmpty then none
  else
    match parseExpPart r2 with
    | none => none
    | some e =>
      some ((((digitsVal ip : ℚ) + (digitsVal fp : ℚ) / 10 ^ fp.length)) * (10 : ℚ) ^ e)

/-- Result of `Decimal(text)` on an already-stripped string:
`invalid` models a raised `InvalidOperation`, `nan` a (quiet or
signaling) NaN, `inf neg` an infinity with its sign, `finite q` an
exact finite decimal.  NaN and the two infinities are kept apart
because the handlers treat them differently: a comparison against a
NaN raises `InvalidOperation` at once, `-Infinity` passes the
non-positive checks like any negative number, and `+Infinity` passes
them and fails only later (at `quantize` or at the `NUMERIC` column
write). -/
inductive DecParse where
  | invalid
  | nan
  | inf (neg : Bool)
  | finite (q : ℚ)
  deriving Repr, DecidableEq

/-- Model of `Decimal(s)` for a stripped string `s` (ASCII digits). -/
def pyDecimal (s : String) : DecParse :=
  let cs := s.data
  let neg : Bool := match cs with
    | '-' :: _ => true
    | _ => false
  let body := match cs with
    | '+' :: r => r
    | '-' :: r => r
    | r => r
  if isNanSpelling body then .nan
  else if isInfSpelling body then .inf neg
  else
    match parseFinite body with
    | none => .invalid
    | some q => .finite ((if neg then (-1 : ℚ) else 1) * q)

/-- Model of Python `str.strip()` on the relevant (ASCII-whitespace)
inputs. -/
def stripWS (s : String) : String :=
  String.mk (((s.data.dropWhile Char.isWhitespace).reverse.dropWhile
    Char.isWhitespace).reverse)

/-- Model of `text.replace(",", ".")`. -/
def commaToDot (s : String) : String :=
  String.mk (s.data.map (fun c => if c = ',' then '.' else c))

/-- The full normalisation `text.strip().replace(",", ".")` applied to
free-text numeric input, followed by `Decimal(...)`. -/
def parseUserNumber (text : String) : DecParse :=
  pyDecimal (commaToDot (stripWS text))

/-! ### Currency formatting

`format_currency` in `bot.py`:
`value.quantize(Decimal("0.01"))` (half-even), then a `,.2f` format
whose thousands separator is swapped to `.` and decimal point to `,`,
prefixed with `R$ `. -/

/-- Digit grouping: insert a separator after every three characters of
the reversed digit string (so every three digits counted from the
right). -/
def group3Rev : List Char → List Char
  | a :: b :: c :: d :: rest => a :: b :: c :: '.' :: group3Rev (d :: rest)
  | l => l

/-- Brazilian-style decimal rendering of an integer number of cents:
sign, thousands-dotted integer part, comma, two-digit cents. -/
def centsToBRL (cents : ℤ) : String :=
  let a := cents.natAbs
  let intPart := String.mk (group3Rev (Nat.repr (a / 100)).data.reverse).reverse
  let frac := a % 100
  let fracPart := if frac < 10 then "0" ++ Nat.repr frac else Nat.repr frac
  (if cents < 0 then "-" else "") ++ intPart ++ "," ++ fracPart

/-- Model of `format_currency` (bot.py lines 75-78). -/
def format_currency (value : ℚ) : String :=
  "R$ " ++ centsToBRL (roundHalfEvenZ (value * 100))

/-! ### Ledger Store (`src/app/database.py`) -/

/-- Row of `tb_produtos`: `id, nome, tipo, quantidade, unidade,
categoria, preco, data_ultima_movimentacao`.  The timestamp column is
an abstract tick (`Nat`). -/
structure Product where
  id : Nat
  nome : String
  tipo : String
  quantidade : ℚ
  unidade : String
  categoria : String
  preco : ℚ
  data_ultima_movimentacao : Nat
  deriving Repr, DecidableEq

/-- Row of `tb_movimentacoes`: `id_produto, tipo_movimentacao,
quantidade, valor_unitario, observacao` (the serial id and the `NOW()`
timestamp carry no information the claims need). -/
structure Movement where
  id_produto : Nat
  tipo_movimentacao : String
  quantidade : ℚ
  valor_unitario : Option ℚ
  observacao : String
  deriving Repr, DecidableEq

/-- Row of `tb_brindes`: `descricao, chat_id`. -/
structure Brinde where
  descricao : String
  chat_id : Option Int
  deriving Repr, DecidableEq

/-- The persistent state owned by `DatabaseManager`. -/
structure DbState where
  products : List Product
  movements : List Movement
  brindes : List Brinde
  deriving Repr, DecidableEq

/-- Errors raised by `DatabaseManager`.  `invalidQuantity` is the
`DatabaseError("A quantidade deve ser positiva.")` raised by
`adjust_stock` for a non-positive quantity (the spec's
`InvalidQuantity`); `persistenceFailure` stands for any other
`DatabaseError` coming from the connection/transaction layer (the
spec's `PersistenceFailure`), which the pure model injects through an
explicit failure flag. -/
inductive DbError where
  | invalidQuantity
  | productNotFound
  | insufficientStock
  | persistenceFailure
  deriving Repr, DecidableEq

/-- Model of `SELECT ... FROM tb_produtos WHERE id = %s` (first row
with the given id). -/
def DbState.get_product (db : DbState) (product_id : Nat) : Option Product :=
  db.products.find? (fun p => p.id = product_id)

/-- Model of `DatabaseManager.fetch_products_by_category` (the `ORDER
BY nome` only affects presentation order and is kept as the stored
order here; the claims depend only on which rows are returned). -/
def DbState.fetch_products_by_category (db : DbState) (category : String) :
    List Product :=
  db.products.filter (fun p => p.categoria = category)

/-- Model of `DatabaseManager.adjust_stock` (database.py lines
181-232): reject a non-positive quantity, look the product row up
(`FOR UPDATE`), compute the signed delta, reject a negative result,
otherwise update the product's quantity and timestamp and insert one
movement row.  `now` is the abstract value of `NOW()`. -/
def adjust_stock (db : DbState) (product_id : Nat) (movement_type : String)
    (quantity : ℚ) (valor_unitario : Option ℚ) (observacao : String)
    (now : Nat) : Except DbError (DbState × ℚ) :=
  if quantity ≤ 0 then
    .error .invalidQuantity
  else
    match db.get_product product_id with
    | none => .error .productNotFound
    | some p =>
      let delta := if movement_type = "entrada" then quantity else -quantity
      let new_quantity := p.quantidade + delta
      if new_quantity < 0 then
        .error .insufficientStock
      else
        let products := db.products.map (fun r =>
          if r.id = product_id then
            { r with quantidade := new_quantity,
                     data_ultima_movimentacao := now }
          else r)
        let mv : Movement :=
          { id_produto := product_id
            tipo_movimentacao := movement_type
            quantidade := quantity
            valor_unitario := valor_unitario
            observacao := observacao }
        .ok ({ db with products := products,
                       movements := db.movements ++ [mv] }, new_quantity)

/-- The observable effect of one `adjust_stock` call: on success the
new state and the returned quantity, on a raised error the unchanged
state (the transaction never reaches `connection.commit()`, so closing
the connection rolls it back and nothing persists). -/
def adjust_stock_run (db : DbState) (product_id : Nat) (movement_type : String)
    (quantity : ℚ) (valor_unitario : Option ℚ) (observacao : String)
    (now : Nat) : DbState × Except DbError ℚ :=
  match adjust_stock db product_id movement_type quantity valor_unitario observacao now with
  | .ok (db2, q) => (db2, .ok q)
  | .error e => (db, .error e)

/-- Model of `DatabaseManager.clear_stock` (database.py lines
407-415): `UPDATE tb_produtos SET quantidade = 0;`. -/
def clear_stock (db : DbState) : DbState :=
  { db with products := db.products.map (fun p => { p with quantidade := 0 }) }

/-- Model of `DatabaseManager.record_brinde`: insert one row into
`tb_brindes`. -/
def record_brinde (db : DbState) (descricao : String) (chat_id : Option Int) :
    DbState :=
  { db with brindes := db.brindes ++ [{ descricao := descricao, chat_id := chat_id }] }

/-- One `adjust_stock` call as the Flow Controller sees it: `fail`
injects a connectivity/transaction failure of the write (a
`DatabaseError` that is neither of the typed subclasses), which in the
source surfaces as a raised exception after no row was committed. -/
def adjust_stock_io (fail : Bool) (db : DbState) (product_id : Nat)
    (movement_type : String) (quantity : ℚ) (valor_unitario : Option ℚ)
    (observacao : String) (now : Nat) : Except DbError (DbState × ℚ) :=
  if fail then .error .persistenceFailure
  else adjust_stock db product_id movement_type quantity valor_unitario observacao now

/-! ### Flow Controller (`src/app/bot.py`)

The model keeps, per user id, the `UserSession` dataclass with the two
load-bearing `metadata` entries promoted to fields:
`metadata["pending_quantity"]` (written as `str(quantity)` and read
back with `Decimal(...)`, an exact round-trip, hence an `Option ℚ`
here) and `metadata.get("is_brinde")`.  The remaining metadata keys
(`product_name`, `product_unit`, `product_price`, `product_stock`,
`category_label`, `last_message_id`, `last_message_chat_id`) only feed
rendered text or in-place message editing and never influence control
flow or persisted data.

Each handler is a function from the bot state (session table plus
database) to the bot state; sending/editing Telegram messages is
dropped.  `fail` is the persistence-failure flag passed down to
`adjust_stock_io` / `record_brinde`; `now` is the abstract clock value
used for `NOW()`. -/

/-- The `UserSession` dataclass (bot.py lines 81-87), with the
load-bearing metadata entries as fields. -/
structure UserSession where
  action : Option String := none
  awaiting : Option String := none
  product_id : Option Nat := none
  category : Option String := none
  pending_quantity : Option ℚ := none
  is_brinde : Bool := false
  deriving Repr, DecidableEq

/-- The `sessions: Dict[int, UserSession]` table, as an association
list keyed by user id. -/
abbrev SessionStore := List (Nat × UserSession)

/-- `self.sessions.get(user_id)`. -/
def getS (ss : SessionStore) (uid : Nat) : Option UserSession :=
  (ss.find? (fun e => e.1 = uid)).map Prod.snd

/-- `self.sessions.pop(user_id, None)`. -/
def popS (ss : SessionStore) (uid : Nat) : SessionStore :=
  ss.filter (fun e => ¬ e.1 = uid)

/-- `self.sessions[user_id] = session`, and likewise any in-place
mutation of the stored session object. -/
def setS (ss : SessionStore) (uid : Nat) (s : UserSession) : SessionStore :=
  (uid, s) :: popS ss uid

/-- The whole state the Flow Controller acts on. -/
structure BotState where
  sessions : SessionStore
  db : DbState
  deriving Repr, DecidableEq

/-- Model of `EosBot._apply_stock_movement` (bot.py lines 1533-1738).
`session` is the value of the (stored) session object at call time —
the callers mutate it in place before calling, so the same value sits
in the store.  The `except DatabaseError` catch-all (a persistence
failure, or the `InvalidQuantity` raise for a non-positive quantity)
replies with a try-again message and leaves both the session table and
the database untouched. -/
def apply_stock_movement (fail : Bool) (st : BotState) (user_id : Nat)
    (session : UserSession) (quantity : ℚ)
    (total_value : Option ℚ) (unit_price : Option ℚ) (now : Nat) : BotState :=
  if ¬ (session.action = some "entrada" ∨ session.action = some "saida") then
    { st with sessions := popS st.sessions user_id }
  else
    match session.product_id with
    | none => { st with sessions := popS st.sessions user_id }
    | some product_id =>
      let mt := session.action.getD ""
      let obs0 := "Movimentação registrada via bot Telegram"
      let observacao :=
        if mt = "saida" then
          let a := match unit_price with
            | some up => obs0 ++ " | Valor unitário: " ++ format_currency up
            | none => obs0
          let b := match total_value with
            | some tv => a ++ " | Total: " ++ format_currency tv
            | none => a
          if session.is_brinde then "[BRINDE] " ++ b else b
        else obs0
      match adjust_stock_io fail st.db product_id mt quantity
          (if mt = "saida" then unit_price else none) observacao now with
      | .error .insufficientStock =>
        let snew := { session with awaiting := some "quantity_choice" }
        { st with sessions := setS st.sessions user_id snew }
      | .error .productNotFound =>
        { st with sessions := popS st.sessions user_id }
      | .error _ => st
      | .ok (db2, _) =>
        { sessions := popS st.sessions user_id, db := db2 }

/-- Model of `EosBot._handle_confirmed_quantity` (bot.py lines
494-632).  `product` is the row the caller just read.  A non-positive
quantity re-prompts in `quantity_choice`; a `saida` larger than the
available quantity re-prompts in `quantity_choice`; a promotional
(`is_brinde`) `saida` commits immediately at unit price `0.00`; any
other `saida` stores the pending quantity and moves to `saida_value`;
everything else (the `entrada` path) commits immediately with no unit
price. -/
def handle_confirmed_quantity (fail : Bool) (st : BotState) (chat_id : Nat)
    (session : UserSession) (product : Product) (quantity : ℚ) (now : Nat) :
    BotState :=
  if quantity ≤ 0 then
    let snew := { session with awaiting := some "quantity_choice" }
    { st with sessions := setS st.sessions chat_id snew }
  else if session.action = some "saida" then
    if product.quantidade < quantity then
      let snew := { session with awaiting := some "quantity_choice" }
      { st with sessions := setS st.sessions chat_id snew }
    else if session.is_brinde then
      let s2 := { session with awaiting := none }
      apply_stock_movement fail
        { st with sessions := setS st.sessions chat_id s2 }
        chat_id s2 quantity (some 0) (some 0) now
    else
      let snew := { session with pending_quantity := some quantity, awaiting := some "saida_value" }
      { st with sessions := setS st.sessions chat_id snew }
  else
    let s2 := { session with awaiting := none }
    apply_stock_movement fail
      { st with sessions := setS st.sessions chat_id s2 }
      chat_id s2 quantity none none now

/-- Model of `EosBot._process_quantity` (bot.py lines 1288-1412),
reached for free text while awaiting `quantity_choice` or
`quantity_manual`.  The Decimal special values follow the source
exactly: a NaN raises `InvalidOperation` at the `quantity <= 0`
comparison (line 1343) before any state is touched; `-Infinity` takes
the non-positive branch (re-prompt in `quantity_manual`); `+Infinity`
passes it and the product checks, then inside
`_handle_confirmed_quantity` a `saida` always trips the availability
warning (`Infinity > available`, line 538, awaiting becomes
`quantity_choice`), while an `entrada` stores `awaiting = None` (line
624) and then aborts uncommitted on the driver error raised by the
`NUMERIC(14,3)` write of an infinite quantity — the cleared session
stays stored and the database is untouched; any other direction is
popped by `_apply_stock_movement`'s direction guard. -/
def process_quantity (fail : Bool) (st : BotState) (user_id : Nat)
    (session : UserSession) (text : String) (now : Nat) : BotState :=
  match parseUserNumber text with
  | .invalid =>
    let snew := { session with awaiting := some "quantity_manual" }
    { st with sessions := setS st.sessions user_id snew }
  | .nan => st
  | .inf true =>
    let snew := { session with awaiting := some "quantity_manual" }
    { st with sessions := setS st.sessions user_id snew }
  | .inf false =>
    match session.product_id with
    | none => { st with sessions := popS st.sessions user_id }
    | some pid =>
      match st.db.get_product pid with
      | none => { st with sessions := popS st.sessions user_id }
      | some _ =>
        if session.action = some "saida" then
          let snew := { session with awaiting := some "quantity_choice" }
          { st with sessions := setS st.sessions user_id snew }
        else if session.action = some "entrada" then
          let snew := { session with awaiting := none }
          { st with sessions := setS st.sessions user_id snew }
        else
          { st with sessions := popS st.sessions user_id }
  | .finite quantity =>
    if quantity ≤ 0 then
      let snew := { session with awaiting := some "quantity_manual" }
      { st with sessions := setS st.sessions user_id snew }
    else
      match session.product_id with
      | none => { st with sessions := popS st.sessions user_id }
      | some pid =>
        match st.db.get_product pid with
        | none => { st with sessions := popS st.sessions user_id }
        | some product =>
          handle_confirmed_quantity fail st user_id session product quantity now

/-- Model of `EosBot._process_saida_value` (bot.py lines 1414-1531),
reached for free text while awaiting `saida_value`: parse the unit
price (unparsable or non-positive re-prompts in `saida_value`), fetch
the pending quantity and the product (any missing reference aborts to
the main menu and discards the session), clear `awaiting`, compute the
total with the default half-even `quantize` and commit.  The stored
pending quantity is `str(...)` of a `Decimal`, so its re-parse cannot
fail.  Decimal special values follow the source exactly: a NaN raises
`InvalidOperation` at the `unit_price <= 0` comparison (line 1445)
before any state is touched; `-Infinity` takes the non-positive branch;
`+Infinity` passes the checks, `session.awaiting = None` is stored
(line 1521), and then `(quantity * unit_price).quantize(...)` raises
`InvalidOperation` on the infinite product (line 1522), uncaught — the
cleared session stays stored and nothing is written. -/
def process_saida_value (fail : Bool) (st : BotState) (user_id : Nat)
    (session : UserSession) (text : String) (now : Nat) : BotState :=
  match parseUserNumber text with
  | .invalid =>
    let snew := { session with awaiting := some "saida_value" }
    { st with sessions := setS st.sessions user_id snew }
  | .nan => st
  | .inf true =>
    let snew := { session with awaiting := some "saida_value" }
    { st with sessions := setS st.sessions user_id snew }
  | .inf false =>
    match session.pending_quantity with
    | none => { st with sessions := popS st.sessions user_id }
    | some _ =>
      match session.product_id with
      | none => { st with sessions := popS st.sessions user_id }
      | some pid =>
        match st.db.get_product pid with
        | none => { st with sessions := popS st.sessions user_id }
        | some _ =>
          let snew := { session with awaiting := none }
          { st with sessions := setS st.sessions user_id snew }
  | .finite unit_price =>
    if unit_price ≤ 0 then
      let snew := { session with awaiting := some "saida_value" }
      { st with sessions := setS st.sessions user_id snew }
    else
      match session.pending_quantity with
      | none => { st with sessions := popS st.sessions user_id }
      | some quantity =>
        match session.product_id with
        | none => { st with sessions := popS st.sessions user_id }
        | some pid =>
          match st.db.get_product pid with
          | none => { st with sessions := popS st.sessions user_id }
          | some _ =>
            let s2 := { session with awaiting := none }
            let total_value := quantize2HalfEven (quantity * unit_price)
            apply_stock_movement fail
              { st with sessions := setS st.sessions user_id s2 }
              user_id s2 quantity (some total_value) (some unit_price) now

/-- Model of `EosBot._show_category_prompt` (bot.py lines 400-431):
awaiting becomes `category`, the selected category is cleared and the
pending quantity metadata entry popped; the selected product id and
the `is_brinde` flag are left as they are. -/
def show_category_prompt (st : BotState) (uid : Nat) (session : UserSession) :
    BotState :=
  let snew := { session with awaiting := some "category", category := none, pending_quantity := none }
  { st with sessions := setS st.sessions uid snew }

/-- Model of `EosBot._show_quantity_prompt` (bot.py lines 362-399):
awaiting becomes `quantity_choice` (the product details it copies into
metadata are rendering-only). -/
def show_quantity_prompt (st : BotState) (uid : Nat) (session : UserSession) :
    BotState :=
  let snew := { session with awaiting := some "quantity_choice" }
  { st with sessions := setS st.sessions uid snew }

/-- Model of `EosBot._show_products_prompt` (bot.py lines 432-493):
pop the pending quantity; with no category fall back to the category
prompt; with an empty category listing drop the session; otherwise
awaiting becomes `product`. -/
def show_products_prompt (st : BotState) (uid : Nat) (session : UserSession) :
    BotState :=
  let s1 := { session with pending_quantity := none }
  let st1 := { st with sessions := setS st.sessions uid s1 }
  match s1.category with
  | none => show_category_prompt st1 uid s1
  | some cat =>
    if (st.db.fetch_products_by_category cat).isEmpty then
      { st1 with sessions := popS st1.sessions uid }
    else
      let snew := { s1 with awaiting := some "product" }
      { st1 with sessions := setS st1.sessions uid snew }

/-- Model of `EosBot._start_stock_flow` (bot.py lines 1243-1287): a
brand-new session awaiting `category` for the given direction. -/
def start_stock_flow (st : BotState) (user_id : Nat) (action : String) :
    BotState :=
  let snew := { action := some action, awaiting := some "category" }
  { st with sessions := setS st.sessions user_id snew }

/-- The four `flow:<action>:<command>` callback payloads the keyboards
emit (keyboards.py). -/
inductive NavCommand where
  | backToCategories
  | backToProducts
  | backToQuantity
  | restart
  deriving Repr, DecidableEq

/-- Model of `EosBot.handle_flow_navigation` (bot.py lines 1128-1198):
create the session if absent, record the direction, then dispatch the
navigation command. -/
def handle_flow_navigation (st : BotState) (user_id : Nat) (action : String)
    (cmd : NavCommand) : BotState :=
  let s0 := match getS st.sessions user_id with
    | none => { action := some action : UserSession }
    | some old => { old with action := some action }
  let st1 := { st with sessions := setS st.sessions user_id s0 }
  match cmd with
  | .backToCategories => show_category_prompt st1 user_id s0
  | .backToProducts => show_products_prompt st1 user_id s0
  | .backToQuantity =>
    match s0.product_id with
    | none => show_products_prompt st1 user_id s0
    | some pid =>
      match st.db.get_product pid with
      | none => show_products_prompt st1 user_id s0
      | some _ => show_quantity_prompt st1 user_id s0
  | .restart => start_stock_flow st1 user_id action

/-- Model of `EosBot.handle_category_selection` (bot.py lines
843-988): record direction and category; an unknown direction drops
the session; `saida` of category `brindes` switches the session to the
promotional flow over the fixed `cafes` category; an empty listing
drops the session, otherwise awaiting becomes `product`. -/
def handle_category_selection (st : BotState) (user_id : Nat)
    (action category : String) : BotState :=
  let s0 := match getS st.sessions user_id with
    | none => { action := some action, awaiting := some "category" : UserSession }
    | some old => { old with action := some action, awaiting := some "category" }
  let s1 := { s0 with category := some category }
  let st1 := { st with sessions := setS st.sessions user_id s1 }
  if ¬ (action = "entrada" ∨ action = "saida") then
    { st1 with sessions := popS st1.sessions user_id }
  else if action = "saida" ∧ category = "brindes" then
    let s2 := { s1 with is_brinde := true, category := some "cafes" }
    let st2 := { st1 with sessions := setS st1.sessions user_id s2 }
    if (st.db.fetch_products_by_category "cafes").isEmpty then
      { st2 with sessions := popS st2.sessions user_id }
    else
      let snew := { s2 with awaiting := some "product" }
      { st2 with sessions := setS st2.sessions user_id snew }
  else
    if (st.db.fetch_products_by_category category).isEmpty then
      { st1 with sessions := popS st1.sessions user_id }
    else
      let snew := { s1 with awaiting := some "product" }
      { st1 with sessions := setS st1.sessions user_id snew }

/-- Model of `EosBot._process_brinde_description` (bot.py lines
2229-2269): blank text re-prompts, otherwise the description is
recorded in `tb_brindes` and the session dropped (a failing insert
raises before the drop). -/
def process_brinde_description (fail : Bool) (st : BotState) (uid : Nat)
    (text : String) : BotState :=
  if stripWS text = "" then st
  else if fail then st
  else { sessions := popS st.sessions uid,
         db := record_brinde st.db (stripWS text) (some (uid : Int)) }

/-- Model of `EosBot.handle_text_message` (bot.py lines 1200-1241):
dispatch free text on the session state.  The `iaeos_question` branch
(`_process_iaeos_question`) only renders an answer and leaves
`awaiting = "iaeos_question"`, so the state is unchanged. -/
def handle_text_message (fail : Bool) (st : BotState) (user_id : Nat)
    (text : String) (now : Nat) : BotState :=
  match getS st.sessions user_id with
  | none => st
  | some s =>
    if (s.action = some "entrada" ∨ s.action = some "saida") ∧
        (s.awaiting = some "quantity_choice" ∨ s.awaiting = some "quantity_manual") then
      process_quantity fail st user_id s text now
    else if s.action = some "saida" ∧ s.awaiting = some "saida_value" then
      process_saida_value fail st user_id s text now
    else if s.awaiting = some "brinde_description" then
      process_brinde_description fail st user_id text
    else if s.action = some "iaeos" ∧ s.awaiting = some "iaeos_question" then
      st
    else
      { st with sessions := popS st.sessions user_id }

end EosBot

namespace EosBot

/-- Concrete ledger used by the witnesses: the spec's scenario products
"Beans 1kg" (quantity 10) and "Beans 250g" (quantity 3), plus an
empty movement and promotional-record history. -/
def sampleDb : DbState :=
  { products :=
      [ { id := 1, nome := "Beans 1kg", tipo := "produto_acabado",
          quantidade := 10, unidade := "un", categoria := "cafes",
          preco := 50, data_ultima_movimentacao := 0 },
        { id := 2, nome := "Beans 250g", tipo := "produto_acabado",
          quantidade := 3, unidade := "un", categoria := "cafes",
          preco := 20, data_ultima_movimentacao := 0 } ],
    movements := [], brindes := [] }

/-- An out-flow session awaiting the unit price, as left by step 5 of
the wizard: used as concrete material by witnesses. -/
def outSession (pid : Nat) (q : ℚ) : UserSession :=
  { action := some "saida", awaiting := some "saida_value",
    product_id := some pid, pending_quantity := some q }

/-! ## Theorems -/

/-- Updating the rows matching an id rewrites the row `find?` returns. -/
theorem find?_update_of_find? (l : List Product) (pid : Nat) (f : Product → Product)
    (hf : ∀ r, (f r).id = r.id) :
    ∀ {p : Product}, l.find? (fun r => r.id = pid) = some p →
      (l.map (fun r => if r.id = pid then f r else r)).find? (fun r => r.id = pid)
        = some (f p) := by
  induction l with
  | nil => intro p hp; simp at hp
  | cons a t ih =>
    intro p hp
    by_cases h : a.id = pid
    · rw [List.find?_cons_of_pos _ (by simpa using h)] at hp
      cases hp
      rw [List.map_cons, if_pos h, List.find?_cons_of_pos _ (by simp [hf, h])]
    · rw [List.find?_cons_of_neg _ (by simpa using h)] at hp
      rw [List.map_cons, if_neg h, List.find?_cons_of_neg _ (by simpa using h)]
      exact ih hp

/-- C1: an `out` (`saida`) adjustment larger than the available stock
raises `InsufficientStockError` and has no effect at all: the database
(product quantities, last-movement timestamps, movement rows) is
returned unchanged. -/
theorem adjust_stock_insufficient_no_effect
    (db : DbState) (pid : Nat) (q : ℚ) (vu : Option ℚ) (obs : String)
    (now : Nat) (p : Product)
    (hq : 0 < q) (hp : db.get_product pid = some p)
    (hlt : p.quantidade < q) :
    adjust_stock_run db pid "saida" q vu obs now = (db, .error .insufficientStock) := by
  have h1 : ¬ q ≤ 0 := not_le.mpr hq
  have h3 : p.quantidade + -q < 0 := by linarith
  unfold adjust_stock_run adjust_stock
  rw [hp]
  simp [h1, h3]

/-- C1 witness: "Beans 250g" holds 3 units; an `out` of 4 fails with
`InsufficientStock` and leaves the ledger untouched. -/
theorem adjust_stock_insufficient_no_effect_witness :
    adjust_stock_run sampleDb 2 "saida" 4 none "nota" 7
      = (sampleDb, .error .insufficientStock) :=
  adjust_stock_insufficient_no_effect sampleDb 2 4 none "nota" 7
    { id := 2, nome := "Beans 250g", tipo := "produto_acabado",
      quantidade := 3, unidade := "un", categoria := "cafes",
      preco := 20, data_ultima_movimentacao := 0 }
    (by norm_num) (by rfl) (by norm_num)

/-- C2: a successful adjustment persists `current + quantity`
(`entrada`) or `current - quantity` (`saida`), refreshes the
last-movement timestamp, appends exactly one movement row carrying the
given direction, quantity, unit price and note, and touches nothing
else; in particular a `saida` of exactly the available amount succeeds
and leaves the quantity at `0`. -/
theorem adjust_stock_success_spec
    (db : DbState) (pid : Nat) (mt : String) (q : ℚ) (vu : Option ℚ)
    (obs : String) (now : Nat) (p : Product)
    (hq : 0 < q) (hpos : 0 ≤ p.quantidade)
    (hp : db.get_product pid = some p)
    (hmt : mt = "entrada" ∨ mt = "saida")
    (hout : mt = "saida" → q ≤ p.quantidade) :
    ∃ db2,
      adjust_stock db pid mt q vu obs now
        = .ok (db2, p.quantidade + (if mt = "entrada" then q else -q)) ∧
      db2.get_product pid = some { p with
        quantidade := p.quantidade + (if mt = "entrada" then q else -q),
        data_ultima_movimentacao := now } ∧
      db2.movements = db.movements ++
        [{ id_produto := pid, tipo_movimentacao := mt, quantidade := q,
           valor_unitario := vu, observacao := obs }] ∧
      db2.brindes = db.brindes ∧
      (q = p.quantidade → mt = "saida" →
        p.quantidade + (if mt = "entrada" then q else -q) = 0) := by
  have h1 : ¬ q ≤ 0 := not_le.mpr hq
  have hnn : ¬ (p.quantidade + (if mt = "entrada" then q else -q) < 0) := by
    rcases hmt with h | h <;> subst h
    · rw [if_pos rfl]; push_neg; linarith
    · rw [if_neg (by decide : ¬ ("saida" = "entrada"))]
      push_neg
      have := hout rfl
      linarith
  refine ⟨{ db with
      products := db.products.map (fun r =>
        if r.id = pid then
          { r with quantidade := p.quantidade + (if mt = "entrada" then q else -q),
                   data_ultima_movimentacao := now }
        else r),
      movements := db.movements ++
        [{ id_produto := pid, tipo_movimentacao := mt, quantidade := q,
           valor_unitario := vu, observacao := obs }] }, ?_, ?_, ?_, ?_, ?_⟩
  · unfold adjust_stock
    rw [hp]
    simp only [h1, if_false, if_neg h1, hnn, if_neg hnn]
  · exact find?_update_of_find? db.products pid
      (fun r => { r with
        quantidade := p.quantidade + (if mt = "entrada" then q else -q),
        data_ultima_movimentacao := now }) (fun r => rfl) hp
  · rfl
  · rfl
  · intro hqq hsaida
    subst hsaida
    simp only [if_neg (by decide : ¬ ("saida" = "entrada"))]
    linarith [hqq]

/-- C2 witness: taking `out` all 10 units of "Beans 1kg" succeeds,
stores quantity `0`, and appends the single movement row. -/
theorem adjust_stock_success_spec_witness :
    ∃ db2,
      adjust_stock sampleDb 1 "saida" 10 (some 50) "nota" 7
        = .ok (db2, (10 : ℚ) + (if "saida" = "entrada" then 10 else -10)) ∧
      db2.get_product 1 = some
        { id := 1, nome := "Beans 1kg", tipo := "produto_acabado",
          quantidade := (10 : ℚ) + (if "saida" = "entrada" then 10 else -10),
          unidade := "un", categoria := "cafes", preco := 50,
          data_ultima_movimentacao := 7 } ∧
      db2.movements = sampleDb.movements ++
        [{ id_produto := 1, tipo_movimentacao := "saida", quantidade := 10,
           valor_unitario := some 50, observacao := "nota" }] ∧
      db2.brindes = sampleDb.brindes ∧
      ((10 : ℚ) = 10 → "saida" = "saida" →
        (10 : ℚ) + (if "saida" = "entrada" then 10 else -10) = 0) :=
  adjust_stock_success_spec sampleDb 1 "saida" 10 (some 50) "nota" 7
    { id := 1, nome := "Beans 1kg", tipo := "produto_acabado",
      quantidade := 10, unidade := "un", categoria := "cafes",
      preco := 50, data_ultima_movimentacao := 0 }
    (by norm_num) (by norm_num) (by rfl) (Or.inr rfl) (fun _ => by norm_num)

/-- C3: a non-positive quantity fails with the invalid-quantity
`DatabaseError` before any database work, and a missing product id
fails with `ProductNotFoundError`; in both cases the database is
returned unchanged. -/
theorem adjust_stock_invalid_inputs
    (db : DbState) (pid : Nat) (mt : String) (q : ℚ) (vu : Option ℚ)
    (obs : String) (now : Nat) :
    (q ≤ 0 →
      adjust_stock_run db pid mt q vu obs now = (db, .error .invalidQuantity)) ∧
    (0 < q → db.get_product pid = none →
      adjust_stock_run db pid mt q vu obs now = (db, .error .productNotFound)) := by
  constructor
  · intro hq
    unfold adjust_stock_run adjust_stock
    simp [hq]
  · intro hq hnone
    have h1 : ¬ q ≤ 0 := not_le.mpr hq
    unfold adjust_stock_run adjust_stock
    rw [hnone]
    simp [h1]

/-- C3 witness: quantity `-1` raises the invalid-quantity error and
product id `99` (absent from the ledger) raises product-not-found,
each leaving the ledger untouched. -/
theorem adjust_stock_invalid_inputs_witness :
    adjust_stock_run sampleDb 1 "entrada" (-1) none "nota" 7
        = (sampleDb, .error .invalidQuantity) ∧
    adjust_stock_run sampleDb 99 "saida" 1 none "nota" 7
        = (sampleDb, .error .productNotFound) :=
  ⟨(adjust_stock_invalid_inputs sampleDb 1 "entrada" (-1) none "nota" 7).1
      (by norm_num),
   (adjust_stock_invalid_inputs sampleDb 99 "saida" 1 none "nota" 7).2
      (by norm_num) (by rfl)⟩

/-- C10: `clear_stock` zeroes every product quantity and nothing else:
row count, every non-quantity product field at every index, and the
movement and promotional-record tables are all unchanged. -/
theorem clear_stock_frame (db : DbState) (i : Nat) :
    (clear_stock db).movements = db.movements ∧
    (clear_stock db).brindes = db.brindes ∧
    (clear_stock db).products.length = db.products.length ∧
    (∀ p ∈ (clear_stock db).products, p.quantidade = 0) ∧
    (clear_stock db).products[i]?.map Product.id = (db.products[i]?).map Product.id ∧
    (clear_stock db).products[i]?.map Product.nome = (db.products[i]?).map Product.nome ∧
    (clear_stock db).products[i]?.map Product.tipo = (db.products[i]?).map Product.tipo ∧
    (clear_stock db).products[i]?.map Product.unidade = (db.products[i]?).map Product.unidade ∧
    (clear_stock db).products[i]?.map Product.categoria = (db.products[i]?).map Product.categoria ∧
    (clear_stock db).products[i]?.map Product.preco = (db.products[i]?).map Product.preco ∧
    (clear_stock db).products[i]?.map Product.data_ultima_movimentacao
      = (db.products[i]?).map Product.data_ultima_movimentacao := by
  unfold clear_stock
  refine ⟨rfl, rfl, by simp, by simp, ?_, ?_, ?_, ?_, ?_, ?_, ?_⟩ <;>
    · simp only [List.getElem?_map, Option.map_map]
      cases db.products[i]? <;> rfl

/-- Reading back the session just stored. -/
theorem getS_setS_same (ss : SessionStore) (uid : Nat) (s : UserSession) :
    getS (setS ss uid s) uid = some s := by
  simp [getS, setS, List.find?]

/-- A dropped session is gone. -/
theorem getS_popS_same (ss : SessionStore) (uid : Nat) :
    getS (popS ss uid) uid = none := by
  unfold getS popS
  rw [List.find?_eq_none.mpr]
  · rfl
  · intro e he
    have := (List.mem_filter.mp he).2
    simpa using this

/-- Dropping right after storing drops the original entry. -/
theorem popS_setS (ss : SessionStore) (uid : Nat) (s : UserSession) :
    popS (setS ss uid s) uid = popS ss uid := by
  unfold popS setS popS
  rw [List.filter_cons]
  simp [List.filter_filter]

/-- Storing twice for the same user keeps only the second session. -/
theorem setS_setS (ss : SessionStore) (uid : Nat) (s s2 : UserSession) :
    setS (setS ss uid s) uid s2 = setS ss uid s2 := by
  unfold setS
  rw [show popS ((uid, s) :: popS ss uid) uid = popS (setS ss uid s) uid from rfl,
    popS_setS]

/-- C7: outcomes of a commit attempt.  A persistence failure (generic
`DatabaseError`) leaves the whole state untouched — the session is not
discarded, so the same commit can be retried.  `ProductNotFoundError`
discards the session (abort to the main menu).  `InsufficientStockError`
keeps the session and puts it back into `quantity_choice`.  In every
failure case the database is unchanged. -/
theorem apply_stock_movement_failure_modes
    (ss : SessionStore) (db : DbState) (uid : Nat) (s2 : UserSession)
    (q : ℚ) (tv up : Option ℚ) (now : Nat) (pid : Nat)
    (hact : s2.action = some "entrada" ∨ s2.action = some "saida")
    (hpid : s2.product_id = some pid) :
    (apply_stock_movement true { sessions := setS ss uid s2, db := db }
        uid s2 q tv up now
      = { sessions := setS ss uid s2, db := db }) ∧
    (0 < q → db.get_product pid = none →
      apply_stock_movement false { sessions := setS ss uid s2, db := db }
          uid s2 q tv up now
        = { sessions := popS ss uid, db := db }) ∧
    (∀ p, 0 < q → db.get_product pid = some p → s2.action = some "saida" →
      p.quantidade < q →
      apply_stock_movement false { sessions := setS ss uid s2, db := db }
          uid s2 q tv up now
        = { sessions := setS ss uid { s2 with awaiting := some "quantity_choice" },
            db := db }) := by
  refine ⟨?_, ?_, ?_⟩
  · unfold apply_stock_movement
    rw [if_neg (not_not_intro hact)]
    simp only [hpid]
    try dsimp only
    split
    · next heq => simp [adjust_stock_io] at heq
    · next heq => simp [adjust_stock_io] at heq
    · rfl
    · next heq => simp [adjust_stock_io] at heq
  · intro hq hnone
    unfold apply_stock_movement
    rw [if_neg (not_not_intro hact)]
    simp only [hpid]
    try dsimp only
    split
    · next heq =>
      simp [adjust_stock_io, adjust_stock, not_le.mpr hq, hnone] at heq
    · rw [popS_setS]
    · next x e hne1 hne2 heq =>
      exfalso
      simp [adjust_stock_io, adjust_stock, not_le.mpr hq, hnone] at heq
      exact hne2 heq.symm
    · next heq =>
      simp [adjust_stock_io, adjust_stock, not_le.mpr hq, hnone] at heq
  · intro p hq hprod hsaida hlt
    have hdelta : p.quantidade + -q < 0 := by linarith
    unfold apply_stock_movement
    rw [if_neg (not_not_intro hact)]
    simp only [hpid]
    try dsimp only
    rw [hsaida]
    split
    · rw [setS_setS]
    · next heq =>
      simp [adjust_stock_io, adjust_stock, not_le.mpr hq, hprod, hdelta] at heq
    · next x e hne1 hne2 heq =>
      exfalso
      simp [adjust_stock_io, adjust_stock, not_le.mpr hq, hprod, hdelta] at heq
      exact hne1 heq.symm
    · next heq =>
      simp [adjust_stock_io, adjust_stock, not_le.mpr hq, hprod, hdelta] at heq

/-- C7 witness: the three outcomes at concrete inputs — a write
failure keeps state and session, product id `99` (absent) drops the
session, and an over-large `saida` on "Beans 250g" returns the session
to `quantity_choice`. -/
theorem apply_stock_movement_failure_modes_witness :
    (apply_stock_movement true
        { sessions := setS [] 10 (outSession 1 5), db := sampleDb }
        10 (outSession 1 5) 5 (some 250) (some 50) 7
      = { sessions := setS [] 10 (outSession 1 5), db := sampleDb }) ∧
    (apply_stock_movement false
        { sessions := setS [] 10 (outSession 99 5), db := sampleDb }
        10 (outSession 99 5) 5 (some 250) (some 50) 7
      = { sessions := popS [] 10, db := sampleDb }) ∧
    (apply_stock_movement false
        { sessions := setS [] 10 (outSession 2 4), db := sampleDb }
        10 (outSession 2 4) 4 (some 80) (some 20) 7
      = { sessions := setS [] 10
            { outSession 2 4 with awaiting := some "quantity_choice" },
          db := sampleDb }) :=
  ⟨(apply_stock_movement_failure_modes [] sampleDb 10 (outSession 1 5)
      5 (some 250) (some 50) 7 1 (Or.inr rfl) rfl).1,
   (apply_stock_movement_failure_modes [] sampleDb 10 (outSession 99 5)
      5 (some 250) (some 50) 7 99 (Or.inr rfl) rfl).2.1 (by norm_num) rfl,
   (apply_stock_movement_failure_modes [] sampleDb 10 (outSession 2 4)
      4 (some 80) (some 20) 7 2 (Or.inr rfl) rfl).2.2
     { id := 2, nome := "Beans 250g", tipo := "produto_acabado",
       quantidade := 3, unidade := "un", categoria := "cafes",
       preco := 20, data_ultima_movimentacao := 0 }
     (by norm_num) rfl rfl (by norm_num)⟩

/-- A successful promotional or priced `saida` commit: the session is
dropped, the product quantity decreases by `q`, and the single
appended movement carries the unit price and the Valor/Total note. -/
theorem apply_stock_movement_saida_ok
    (ss : SessionStore) (db : DbState) (uid : Nat) (s2 : UserSession)
    (q tv up : ℚ) (now : Nat) (pid : Nat) (p : Product)
    (hact : s2.action = some "saida") (hpid : s2.product_id = some pid)
    (hbr : s2.is_brinde = false)
    (hq : 0 < q) (hprod : db.get_product pid = some p)
    (hnn : ¬ (p.quantidade + -q < 0)) :
    apply_stock_movement false { sessions := setS ss uid s2, db := db }
        uid s2 q (some tv) (some up) now
      = { sessions := popS ss uid,
          db := { db with
            products := db.products.map (fun r =>
              if r.id = pid then
                { r with quantidade := p.quantidade + -q,
                         data_ultima_movimentacao := now }
              else r),
            movements := db.movements ++
              [{ id_produto := pid, tipo_movimentacao := "saida",
                 quantidade := q, valor_unitario := some up,
                 observacao := "Movimentação registrada via bot Telegram"
                   ++ " | Valor unitário: " ++ format_currency up
                   ++ " | Total: " ++ format_currency tv }] } } := by
  unfold apply_stock_movement
  rw [if_neg (by simp [hact])]
  simp only [hpid]
  try dsimp only
  split
  · next heq =>
    simp [adjust_stock_io, adjust_stock, not_le.mpr hq, hact, hprod, hnn] at heq
  · next heq =>
    simp [adjust_stock_io, adjust_stock, not_le.mpr hq, hact, hprod, hnn] at heq
  · next x e hne1 hne2 heq =>
    simp [adjust_stock_io, adjust_stock, not_le.mpr hq, hact, hprod, hnn] at heq
  · next db2 snd heq =>
    simp [adjust_stock_io, adjust_stock, not_le.mpr hq, hact, hprod, hnn, hbr] at heq
    rw [← heq.1, popS_setS]
    simp [hact, hbr]

/-- C4 (amended): a committed out-flow with pending quantity `Q` and a
valid entered unit price `P > 0` appends exactly one `saida` movement
with `quantidade = Q` and `valor_unitario = P`, whose note records the
unit price and the total `Q * P` rounded to two decimal places with
the default half-even rounding of `Decimal.quantize` (not round-half-up);
the product quantity drops by `Q` and the session ends. -/
theorem process_saida_value_commit_spec
    (st : BotState) (uid : Nat) (s : UserSession) (text : String)
    (now : Nat) (P Q : ℚ) (pid : Nat) (p : Product)
    (hparse : parseUserNumber text = .finite P) (hP : 0 < P)
    (hpend : s.pending_quantity = some Q) (hQ : 0 < Q)
    (hpid : s.product_id = some pid)
    (hprod : st.db.get_product pid = some p)
    (haction : s.action = some "saida") (hbr : s.is_brinde = false)
    (hstock : Q ≤ p.quantidade) :
    (process_saida_value false st uid s text now).db.movements
      = st.db.movements ++
        [{ id_produto := pid, tipo_movimentacao := "saida", quantidade := Q,
           valor_unitario := some P,
           observacao := "Movimentação registrada via bot Telegram"
             ++ " | Valor unitário: " ++ format_currency P
             ++ " | Total: " ++ format_currency (quantize2HalfEven (Q * P)) }] ∧
    getS (process_saida_value false st uid s text now).sessions uid = none ∧
    (process_saida_value false st uid s text now).db.get_product pid
      = some { p with quantidade := p.quantidade - Q,
                      data_ultima_movimentacao := now } := by
  have hnn : ¬ (p.quantidade + -Q < 0) := by push_neg; linarith
  have hrun : process_saida_value false st uid s text now
      = apply_stock_movement false
          { st with sessions := setS st.sessions uid { s with awaiting := none, product_id := some pid, pending_quantity := some Q } }
          uid
          { s with awaiting := none, product_id := some pid, pending_quantity := some Q }
          Q (some (quantize2HalfEven (Q * P))) (some P) now := by
    unfold process_saida_value
    simp only [hparse]
    try dsimp only
    rw [if_neg (not_le.mpr hP)]
    simp only [hpend, hpid, hprod]
  rw [hrun,
    apply_stock_movement_saida_ok st.sessions st.db uid
      { s with awaiting := none, product_id := some pid, pending_quantity := some Q }
      Q (quantize2HalfEven (Q * P)) P now pid p haction rfl hbr hQ hprod hnn]
  refine ⟨rfl, getS_popS_same st.sessions uid, ?_⟩
  have hupd := find?_update_of_find? st.db.products pid
    (fun r => { r with quantidade := p.quantidade + -Q,
                       data_ultima_movimentacao := now }) (fun r => rfl) hprod
  unfold DbState.get_product at hupd ⊢
  rw [show (p.quantidade - Q) = (p.quantidade + -Q) from sub_eq_add_neg _ _]
  exact hupd

/-- C4 witness: the spec scenario — "Beans 1kg" at quantity 10, out
quantity 10 at price 50 — commits a movement with total `R$ 500,00`
and leaves the product at quantity `0`. -/
theorem process_saida_value_commit_spec_witness :
    (process_saida_value false
        { sessions := [(10, outSession 1 10)], db := sampleDb }
        10 (outSession 1 10) "50" 7).db.movements
      = sampleDb.movements ++
        [{ id_produto := 1, tipo_movimentacao := "saida", quantidade := 10,
           valor_unitario := some 50,
           observacao := "Movimentação registrada via bot Telegram"
             ++ " | Valor unitário: " ++ format_currency 50
             ++ " | Total: " ++ format_currency (quantize2HalfEven (10 * 50)) }] ∧
    getS (process_saida_value false
        { sessions := [(10, outSession 1 10)], db := sampleDb }
        10 (outSession 1 10) "50" 7).sessions 10 = none ∧
    (process_saida_value false
        { sessions := [(10, outSession 1 10)], db := sampleDb }
        10 (outSession 1 10) "50" 7).db.get_product 1
      = some { id := 1, nome := "Beans 1kg", tipo := "produto_acabado",
               quantidade := (10 : ℚ) - 10, unidade := "un",
               categoria := "cafes", preco := 50,
               data_ultima_movimentacao := 7 } :=
  process_saida_value_commit_spec
    { sessions := [(10, outSession 1 10)], db := sampleDb }
    10 (outSession 1 10) "50" 7 50 10 1
    { id := 1, nome := "Beans 1kg", tipo := "produto_acabado",
      quantidade := 10, unidade := "un", categoria := "cafes",
      preco := 50, data_ultima_movimentacao := 0 }
    (by simp [parseUserNumber, pyDecimal, commaToDot, stripWS, parseFinite,
       parseExpPart, digitsVal, isNanSpelling, isInfSpelling])
    (by norm_num) rfl (by norm_num) rfl rfl rfl rfl (by norm_num)

/-- C4 counterexample to round-half-up: entering the unit price
`0,125` for one unit records the half-even total `R$ 0,12`, while
round-half-up of `1 × 0.125` to two decimals is `0.13`. -/
theorem saida_value_rounding_counterexample :
    (process_saida_value false
        { sessions := [(10, outSession 1 1)], db := sampleDb }
        10 (outSession 1 1) "0,125" 7).db.movements
      = [{ id_produto := 1, tipo_movimentacao := "saida", quantidade := 1,
           valor_unitario := some (1/8),
           observacao := "Movimentação registrada via bot Telegram | Valor unitário: R$ 0,12 | Total: R$ 0,12" }] ∧
    quantize2HalfEven (1 * (1/8)) = 12/100 ∧
    quantize2HalfUp (1 * (1/8)) = 13/100 ∧
    format_currency (quantize2HalfUp (1 * (1/8))) = "R$ 0,13" := by
  have heven : quantize2HalfEven (1 * (1/8)) = 12/100 := by
    unfold quantize2HalfEven roundHalfEvenZ
    norm_num
  have hup : quantize2HalfUp (1 * (1/8)) = 13/100 := by
    unfold quantize2HalfUp roundHalfUpZ
    norm_num
  have hfcP : format_currency (1/8) = "R$ 0,12" := by
    have h : roundHalfEvenZ ((1/8 : ℚ) * 100) = 12 := by
      unfold roundHalfEvenZ
      norm_num
    unfold format_currency
    rw [h]
    decide
  have hfcT : format_currency (quantize2HalfEven (1 * (1/8))) = "R$ 0,12" := by
    rw [heven]
    have h : roundHalfEvenZ ((12 : ℚ)/100 * 100) = 12 := by
      unfold roundHalfEvenZ
      norm_num
    unfold format_currency
    rw [h]
    decide
  have hfcU : format_currency ((13 : ℚ)/100) = "R$ 0,13" := by
    have h : roundHalfEvenZ ((13 : ℚ)/100 * 100) = 13 := by
      unfold roundHalfEvenZ
      norm_num
    unfold format_currency
    rw [h]
    decide
  have hparse : parseUserNumber "0,125" = .finite (1/8) := by
    simp [parseUserNumber, pyDecimal, commaToDot, stripWS, parseFinite,
      parseExpPart, digitsVal, isNanSpelling, isInfSpelling]
    norm_num
  have hP : ¬ ((1 : ℚ)/8 ≤ 0) := by norm_num
  have h8 : ¬ ((8 : ℚ) ≤ 0) := by norm_num
  have h1 : ¬ ((1 : ℚ) ≤ 0) := by norm_num
  have hnn : ¬ ((10 : ℚ) + -1 < 0) := by norm_num
  have hfcP2 : format_currency ((8 : ℚ)⁻¹) = "R$ 0,12" := by
    rw [show ((8 : ℚ)⁻¹) = 1/8 from by norm_num]
    exact hfcP
  have hfcT2 : format_currency (quantize2HalfEven ((8 : ℚ)⁻¹)) = "R$ 0,12" := by
    rw [show ((8 : ℚ)⁻¹) = 1/8 from by norm_num]
    rw [show ((1 : ℚ)/8) = 1 * (1/8) from by norm_num]
    exact hfcT
  refine ⟨?_, heven, hup, by rw [hup]; exact hfcU⟩
  simp [process_saida_value, hparse, hP, outSession, sampleDb,
    DbState.get_product, List.find?, apply_stock_movement, adjust_stock_io,
    adjust_stock, h1, h8, hnn, hfcP2, hfcT2, setS, popS]

/-- C5 (amended): "back to categories" always lands in state
`category` with the selected category and the pending quantity
cleared — the selected product id is retained, not cleared — the
database is untouched, and the transition is idempotent. -/
theorem back_to_categories_spec (st : BotState) (uid : Nat) (action : String) :
    ((handle_flow_navigation st uid action .backToCategories).db = st.db) ∧
    (∀ s, getS (handle_flow_navigation st uid action .backToCategories).sessions uid
        = some s →
      s.awaiting = some "category" ∧ s.category = none ∧
      s.pending_quantity = none ∧
      s.product_id = (getS st.sessions uid).bind UserSession.product_id) ∧
    (getS (handle_flow_navigation st uid action .backToCategories).sessions uid).isSome ∧
    handle_flow_navigation (handle_flow_navigation st uid action .backToCategories)
        uid action .backToCategories
      = handle_flow_navigation st uid action .backToCategories := by
  rcases hget : getS st.sessions uid with _ | old
  · have hres : handle_flow_navigation st uid action .backToCategories
        = { st with sessions := setS st.sessions uid { action := some action, awaiting := some "category" } } := by
      unfold handle_flow_navigation show_category_prompt
      simp only [hget]
      try dsimp only
      rw [setS_setS]
    refine ⟨by rw [hres], ?_, ?_, ?_⟩
    · intro s hs
      rw [hres] at hs
      rw [show ({ st with sessions := setS st.sessions uid { action := some action, awaiting := some "category" } } : BotState).sessions
        = setS st.sessions uid { action := some action, awaiting := some "category" }
        from rfl, getS_setS_same] at hs
      cases hs
      exact ⟨rfl, rfl, rfl, rfl⟩
    · rw [hres]
      simp [getS_setS_same]
    · rw [hres]
      unfold handle_flow_navigation show_category_prompt
      simp only [getS_setS_same]
      try dsimp only
      rw [setS_setS, setS_setS]
  · have hres : handle_flow_navigation st uid action .backToCategories
        = { st with sessions := setS st.sessions uid { old with action := some action, awaiting := some "category", category := none, pending_quantity := none } } := by
      unfold handle_flow_navigation show_category_prompt
      simp only [hget]
      try dsimp only
      rw [setS_setS]
    refine ⟨by rw [hres], ?_, ?_, ?_⟩
    · intro s hs
      rw [hres] at hs
      rw [show ({ st with sessions := setS st.sessions uid { old with action := some action, awaiting := some "category", category := none, pending_quantity := none } } : BotState).sessions
        = setS st.sessions uid { old with action := some action, awaiting := some "category", category := none, pending_quantity := none }
        from rfl, getS_setS_same] at hs
      cases hs
      exact ⟨rfl, rfl, rfl, rfl⟩
    · rw [hres]
      simp [getS_setS_same]
    · rw [hres]
      unfold handle_flow_navigation show_category_prompt
      simp only [getS_setS_same]
      try dsimp only
      rw [setS_setS, setS_setS]

/-- C5 witness: the amended navigation property at a concrete state
holding a session with product id 7. -/
theorem back_to_categories_spec_witness :
    ∀ s, getS (handle_flow_navigation
        { sessions := [(10, outSession 7 5)], db := sampleDb }
        10 "saida" .backToCategories).sessions 10 = some s →
      s.awaiting = some "category" ∧ s.category = none ∧
      s.pending_quantity = none ∧
      s.product_id = (getS ([(10, outSession 7 5)] : SessionStore) 10).bind
        UserSession.product_id :=
  (back_to_categories_spec
    { sessions := [(10, outSession 7 5)], db := sampleDb } 10 "saida").2.1

/-- C5 counterexample: after "back to categories" the stored session
still carries product id 7 — the selected product id is not cleared. -/
theorem back_to_categories_counterexample :
    (getS ((handle_flow_navigation
        { sessions := [(10, outSession 7 5)], db := sampleDb }
        10 "saida" .backToCategories).sessions) 10).bind UserSession.product_id
      = some 7 := by
  simp [handle_flow_navigation, show_category_prompt, getS, setS, popS,
    outSession, List.find?]

/-- C8: free-text quantity entry.  The text is normalised
(decimal-comma to point) and parsed as a decimal — "12,5" parses to
12.5 — and an unparsable or non-positive entry stores the session with
`awaiting = "quantity_manual"` and changes nothing else (in
particular, no stock change). -/
theorem quantity_text_parsing_spec
    (st : BotState) (uid : Nat) (s : UserSession) (text : String) (now : Nat)
    (hs : getS st.sessions uid = some s)
    (hact : s.action = some "entrada" ∨ s.action = some "saida")
    (hawait : s.awaiting = some "quantity_choice" ∨
      s.awaiting = some "quantity_manual") :
    parseUserNumber "12,5" = .finite (25/2) ∧
    (parseUserNumber text = .invalid →
      handle_text_message false st uid text now
        = { st with sessions := setS st.sessions uid { s with awaiting := some "quantity_manual" } }) ∧
    (∀ q, parseUserNumber text = .finite q → q ≤ 0 →
      handle_text_message false st uid text now
        = { st with sessions := setS st.sessions uid { s with awaiting := some "quantity_manual" } }) := by
  have hdisp : handle_text_message false st uid text now
      = process_quantity false st uid s text now := by
    unfold handle_text_message
    simp only [hs]
    try dsimp only
    rw [if_pos ⟨hact, hawait⟩]
  refine ⟨?_, ?_, ?_⟩
  · simp [parseUserNumber, pyDecimal, commaToDot, stripWS, parseFinite,
      parseExpPart, digitsVal, isNanSpelling, isInfSpelling]
    norm_num
  · intro hinv
    rw [hdisp]
    unfold process_quantity
    rw [hinv]
  · intro q hq hle
    rw [hdisp]
    unfold process_quantity
    rw [hq]
    try dsimp only
    rw [if_pos hle]

/-- C8 witness: entry "abc" while awaiting a manual quantity keeps the
session in `quantity_manual` and leaves the database alone, and "12,5"
parses to 12.5. -/
theorem quantity_text_parsing_spec_witness :
    parseUserNumber "12,5" = .finite (25/2) ∧
    (handle_text_message false
        { sessions := [(10, { action := some "entrada", awaiting := some "quantity_manual", product_id := some 1 })], db := sampleDb }
        10 "abc" 7
      = { sessions := setS
            [(10, { action := some "entrada", awaiting := some "quantity_manual", product_id := some 1 })]
            10 { action := some "entrada", awaiting := some "quantity_manual", product_id := some 1 },
          db := sampleDb }) :=
  ⟨(quantity_text_parsing_spec
      { sessions := [(10, { action := some "entrada", awaiting := some "quantity_manual", product_id := some 1 })], db := sampleDb }
      10 { action := some "entrada", awaiting := some "quantity_manual", product_id := some 1 }
      "abc" 7 (by simp [getS, List.find?]) (Or.inl rfl) (Or.inr rfl)).1,
   (quantity_text_parsing_spec
      { sessions := [(10, { action := some "entrada", awaiting := some "quantity_manual", product_id := some 1 })], db := sampleDb }
      10 { action := some "entrada", awaiting := some "quantity_manual", product_id := some 1 }
      "abc" 7 (by simp [getS, List.find?]) (Or.inl rfl) (Or.inr rfl)).2.1
     (by simp [parseUserNumber, pyDecimal, commaToDot, stripWS, parseFinite,
        parseExpPart, digitsVal, isNanSpelling, isInfSpelling])⟩

/-- A successful promotional commit: note tagged `[BRINDE]`, session
dropped. -/
theorem apply_stock_movement_brinde_ok
    (ss : SessionStore) (db : DbState) (uid : Nat) (s2 : UserSession)
    (q tv up : ℚ) (now : Nat) (pid : Nat) (p : Product)
    (hact : s2.action = some "saida") (hpid : s2.product_id = some pid)
    (hbr : s2.is_brinde = true)
    (hq : 0 < q) (hprod : db.get_product pid = some p)
    (hnn : ¬ (p.quantidade + -q < 0)) :
    apply_stock_movement false { sessions := setS ss uid s2, db := db }
        uid s2 q (some tv) (some up) now
      = { sessions := popS ss uid,
          db := { db with
            products := db.products.map (fun r =>
              if r.id = pid then
                { r with quantidade := p.quantidade + -q,
                         data_ultima_movimentacao := now }
              else r),
            movements := db.movements ++
              [{ id_produto := pid, tipo_movimentacao := "saida",
                 quantidade := q, valor_unitario := some up,
                 observacao := "[BRINDE] "
                   ++ ("Movimentação registrada via bot Telegram"
                     ++ " | Valor unitário: " ++ format_currency up
                     ++ " | Total: " ++ format_currency tv) }] } } := by
  unfold apply_stock_movement
  rw [if_neg (by simp [hact])]
  simp only [hpid]
  try dsimp only
  split
  · next heq =>
    simp [adjust_stock_io, adjust_stock, not_le.mpr hq, hact, hprod, hnn] at heq
  · next heq =>
    simp [adjust_stock_io, adjust_stock, not_le.mpr hq, hact, hprod, hnn] at heq
  · next x e hne1 hne2 heq =>
    simp [adjust_stock_io, adjust_stock, not_le.mpr hq, hact, hprod, hnn] at heq
  · next db2 snd heq =>
    simp [adjust_stock_io, adjust_stock, not_le.mpr hq, hact, hprod, hnn, hbr] at heq
    rw [← heq.1, popS_setS]
    simp [hact, hbr]

/-- C9: the promotional (brinde) out-flow.  Choosing category
`brindes` in a `saida` flow lists the `cafes` products and marks the
session promotional; confirming a quantity within stock commits
immediately — skipping the pricing sub-flow — an out movement at unit
price `0.00` whose note is tagged `[BRINDE]`, and the session ends. -/
theorem brinde_flow_spec
    (st : BotState) (uid : Nat) (s : UserSession) (pid : Nat) (p : Product)
    (q : ℚ) (now : Nat) :
    (¬ (st.db.fetch_products_by_category "cafes").isEmpty = true →
      ∃ s2, getS (handle_category_selection st uid "saida" "brindes").sessions uid
          = some s2 ∧
        s2.is_brinde = true ∧ s2.category = some "cafes" ∧
        s2.awaiting = some "product") ∧
    (s.action = some "saida" → s.is_brinde = true → s.product_id = some pid →
      st.db.get_product pid = some p → 0 < q → q ≤ p.quantidade →
      (handle_confirmed_quantity false st uid s p q now).db.movements
        = st.db.movements ++
          [{ id_produto := pid, tipo_movimentacao := "saida", quantidade := q,
             valor_unitario := some 0,
             observacao := "[BRINDE] "
               ++ ("Movimentação registrada via bot Telegram"
                 ++ " | Valor unitário: " ++ format_currency 0
                 ++ " | Total: " ++ format_currency 0) }] ∧
      getS (handle_confirmed_quantity false st uid s p q now).sessions uid = none ∧
      (handle_confirmed_quantity false st uid s p q now).db.get_product pid
        = some { p with quantidade := p.quantidade - q,
                        data_ultima_movimentacao := now }) := by
  constructor
  · intro hne
    rcases hget : getS st.sessions uid with _ | old <;>
      unfold handle_category_selection <;> simp only [hget] <;> try dsimp only
    · rw [if_neg (by simp), if_pos (by exact ⟨trivial, trivial⟩),
        if_neg hne, setS_setS, setS_setS]
      exact ⟨_, getS_setS_same _ _ _, rfl, rfl, rfl⟩
    · rw [if_neg (by simp), if_pos (by exact ⟨trivial, trivial⟩),
        if_neg hne, setS_setS, setS_setS]
      exact ⟨_, getS_setS_same _ _ _, rfl, rfl, rfl⟩
  · intro hsaida hbr hpid hprod hq hle
    have hnn : ¬ (p.quantidade + -q < 0) := by push_neg; linarith
    have hrun : handle_confirmed_quantity false st uid s p q now
        = apply_stock_movement false
            { st with sessions := setS st.sessions uid { s with awaiting := none } }
            uid { s with awaiting := none } q (some 0) (some 0) now := by
      unfold handle_confirmed_quantity
      rw [if_neg (not_le.mpr hq), if_pos hsaida, if_neg (not_lt.mpr hle),
        if_pos hbr]
    rw [hrun, apply_stock_movement_brinde_ok st.sessions st.db uid
      { s with awaiting := none } q 0 0 now pid p hsaida hpid hbr hq hprod hnn]
    refine ⟨rfl, getS_popS_same st.sessions uid, ?_⟩
    have hupd := find?_update_of_find? st.db.products pid
      (fun r => { r with quantidade := p.quantidade + -q,
                         data_ultima_movimentacao := now }) (fun r => rfl) hprod
    unfold DbState.get_product at hupd ⊢
    rw [show (p.quantidade - q) = (p.quantidade + -q) from sub_eq_add_neg _ _]
    exact hupd

/-- C9 witness: the spec scenario — promotional out of 3 units of
"Beans 250g" — drawn from the `cafes` listing, committed at price
`0,00` with a `[BRINDE]` note, quantity dropping to `0`. -/
theorem brinde_flow_spec_witness :
    (∃ s2, getS (handle_category_selection
          { sessions := [], db := sampleDb } 10 "saida" "brindes").sessions 10
        = some s2 ∧
      s2.is_brinde = true ∧ s2.category = some "cafes" ∧
      s2.awaiting = some "product") ∧
    ((handle_confirmed_quantity false
        { sessions := [(10, { action := some "saida", awaiting := some "quantity_choice", product_id := some 2, category := some "cafes", is_brinde := true })], db := sampleDb }
        10
        { action := some "saida", awaiting := some "quantity_choice", product_id := some 2, category := some "cafes", is_brinde := true }
        { id := 2, nome := "Beans 250g", tipo := "produto_acabado", quantidade := 3, unidade := "un", categoria := "cafes", preco := 20, data_ultima_movimentacao := 0 }
        3 7).db.movements
      = sampleDb.movements ++
        [{ id_produto := 2, tipo_movimentacao := "saida", quantidade := 3,
           valor_unitario := some 0,
           observacao := "[BRINDE] "
             ++ ("Movimentação registrada via bot Telegram"
               ++ " | Valor unitário: " ++ format_currency 0
               ++ " | Total: " ++ format_currency 0) }] ∧
      getS (handle_confirmed_quantity false
        { sessions := [(10, { action := some "saida", awaiting := some "quantity_choice", product_id := some 2, category := some "cafes", is_brinde := true })], db := sampleDb }
        10
        { action := some "saida", awaiting := some "quantity_choice", product_id := some 2, category := some "cafes", is_brinde := true }
        { id := 2, nome := "Beans 250g", tipo := "produto_acabado", quantidade := 3, unidade := "un", categoria := "cafes", preco := 20, data_ultima_movimentacao := 0 }
        3 7).sessions 10 = none ∧
      (handle_confirmed_quantity false
        { sessions := [(10, { action := some "saida", awaiting := some "quantity_choice", product_id := some 2, category := some "cafes", is_brinde := true })], db := sampleDb }
        10
        { action := some "saida", awaiting := some "quantity_choice", product_id := some 2, category := some "cafes", is_brinde := true }
        { id := 2, nome := "Beans 250g", tipo := "produto_acabado", quantidade := 3, unidade := "un", categoria := "cafes", preco := 20, data_ultima_movimentacao := 0 }
        3 7).db.get_product 2
        = some { id := 2, nome := "Beans 250g", tipo := "produto_acabado",
                 quantidade := (3 : ℚ) - 3, unidade := "un",
                 categoria := "cafes", preco := 20,
                 data_ultima_movimentacao := 7 }) :=
  ⟨(brinde_flow_spec { sessions := [], db := sampleDb } 10
      { action := some "saida", awaiting := some "quantity_choice", product_id := some 2, category := some "cafes", is_brinde := true }
      2
      { id := 2, nome := "Beans 250g", tipo := "produto_acabado", quantidade := 3, unidade := "un", categoria := "cafes", preco := 20, data_ultima_movimentacao := 0 }
      3 7).1 (by simp [sampleDb, DbState.fetch_products_by_category]),
   (brinde_flow_spec
      { sessions := [(10, { action := some "saida", awaiting := some "quantity_choice", product_id := some 2, category := some "cafes", is_brinde := true })], db := sampleDb }
      10
      { action := some "saida", awaiting := some "quantity_choice", product_id := some 2, category := some "cafes", is_brinde := true }
      2
      { id := 2, nome := "Beans 250g", tipo := "produto_acabado", quantidade := 3, unidade := "un", categoria := "cafes", preco := 20, data_ultima_movimentacao := 0 }
      3 7).2 rfl rfl rfl rfl (by norm_num) (by norm_num)⟩

end EosBot
